import Mathlib

/-!
Shallow embedding of `backend/orchestrator.py` from the multi-agent
secure-code-generation pipeline.

The four collaborator agents (code generator, syntax checker,
hallucination detector, code reviewer) are LLM-backed services; the
orchestrator only observes their returned dictionaries (or the
exceptions they raise).  Each run of the pipeline is therefore
modelled against an `Oracle`: a family of responses indexed by how
many calls have been made to that agent so far (and, for the
validators, the code they were handed).  Any concrete single-threaded
execution of the Python pipeline corresponds to exactly one oracle.

Timestamps (`created_at`, `completed_at`, `failed_at`) and the uuid
generator are outside the model: the request id is a parameter.
The `World` record carries instrumentation (call counters and call
logs) that the Python runtime performs implicitly; it never feeds
back into the control flow.
-/

/-- `Stage` enum of `orchestrator.py`. -/
inductive Stage
  | initialized
  | code_generation
  | syntax_check
  | hallucination_check
  | code_review
  | completed
  | failed
deriving DecidableEq

/-- `Stage.value`: the string payload of each enum member. -/
def Stage.value : Stage → String
  | .initialized => "initialized"
  | .code_generation => "code_generation"
  | .syntax_check => "syntax_check"
  | .hallucination_check => "hallucination_check"
  | .code_review => "code_review"
  | .completed => "completed"
  | .failed => "failed"

/-- `Status` enum of `orchestrator.py`. -/
inductive Status
  | in_progress
  | completed
  | failed
deriving DecidableEq

/-- `Status.value`: the string payload of each enum member. -/
def Status.value : Status → String
  | .in_progress => "in_progress"
  | .completed => "completed"
  | .failed => "failed"

/-- One element of the `errors` list of a syntax-checker result.
`none` models an absent key (the orchestrator reads them with
`error.get(key, default)`). -/
structure SynError where
  line : Option String := none
  issue : Option String := none
  fix : Option String := none
deriving DecidableEq

/-- Result of one `syntax_checker.validate` call, as the orchestrator
observes it: `valid` is `status == "SYNTAX_VALID"`; `invalid` is any
other returned status (`SYNTAX_ERROR`, `PARSE_FAILED`), carrying the
`errors` list and the `corrected_code` value when the key is present;
`exc` is a raised exception. -/
inductive SynResult
  | valid
  | invalid (errors : List SynError) (corrected_code : Option String)
  | exc (msg : String)
deriving DecidableEq

/-- One element of the `hallucinations` list of a detector result. -/
structure Hallucination where
  type : Option String := none
  referenced : Option String := none
  issue : Option String := none
  suggestion : Option String := none
deriving DecidableEq

/-- Result of one `hallucination_detector.verify` call: `verified` is
`status == "VERIFIED"`; `detected` is any other status with its
`hallucinations` list; `exc` is a raised exception. -/
inductive HalResult
  | verified
  | detected (hallucinations : List Hallucination)
  | exc (msg : String)
deriving DecidableEq

/-- Result of one `code_generator.generate` call: `success` is
`status == "success"` with its `code`; `failure` is any other status,
with the `error` value when that key is present; `exc` is a raised
exception. -/
inductive GenResult
  | success (code : String)
  | failure (error : Option String)
  | exc (msg : String)
deriving DecidableEq

/-- The value stored under a `score` key of a review dictionary
(a number, or an explicit `None`). -/
inductive ScoreV
  | num (n : Nat)
  | null
deriving DecidableEq

/-- The review dictionary returned by `code_reviewer.review`, restricted
to what the orchestrator reads: the optional `score` and `summary` keys
(`none` = key absent) plus whether the dictionary carries any further
keys (`otherKeys`), which only matters for Python truthiness of the
stored artifact. -/
structure ReviewData where
  score : Option ScoreV := none
  summary : Option String := none
  otherKeys : Bool := false
deriving DecidableEq

/-- What ends up in `artifacts["review_result"]`: either the reviewer's
dictionary, or the `{"status": "error", "error": msg}` record the
orchestrator stores when the reviewer raises. -/
inductive ReviewStored
  | result (r : ReviewData)
  | errorRecord (msg : String)
deriving DecidableEq

/-- Python truthiness of the stored review artifact
(`if state.artifacts.get("review_result"):`). -/
def reviewTruthy : ReviewStored → Bool
  | .result r => r.score.isSome || r.summary.isSome || r.otherKeys
  | .errorRecord _ => true

/-- Result of the single `code_reviewer.review` call: the returned
dictionary, or a raised exception. -/
inductive RevResult
  | ok (r : ReviewData)
  | exc (msg : String)
deriving DecidableEq

/-- The `request_data` dictionary handed to `code_generator.generate`.
`previous_attempt`/`feedback` are `none` when the key is absent;
`previous_attempt` is `some v` when the key is present with value `v`
(itself an `Option` since `artifacts["generated_code"]` may be `None`). -/
structure GenRequest where
  action : String := "generate"
  request : String
  constraints : List String := ["python_only", "no_placeholders"]
  previous_attempt : Option (Option String) := none
  feedback : Option String := none
deriving DecidableEq

/-- Instrumentation record of one generation-service call: the attempt
index inside its `_run_code_generation` invocation, the request sent,
and the value of `state.error_messages` at the moment of the call. -/
structure GenCall where
  attempt : Nat
  req : GenRequest
  errorLogAtCall : List String
deriving DecidableEq

/-- The collaborator services, as response families.  `gen n` is the
response of the `n`-th generation call of the run (0-based); `syn` and
`hal` additionally receive the code they are handed, `rev` the final
candidate. -/
structure Oracle where
  gen : Nat → GenResult
  syn : Nat → Option String → SynResult
  hal : Nat → Option String → HalResult
  rev : Option String → RevResult

/-- Instrumentation carried alongside the run: call counters and call
logs for each service.  Never read by the pipeline's control flow. -/
structure World where
  genCalls : Nat := 0
  synCalls : Nat := 0
  halCalls : Nat := 0
  genLog : List GenCall := []
  synLog : List (Option String × SynResult) := []
  halLog : List (Option String × HalResult) := []
deriving DecidableEq

/-- `RequestState` dataclass of `orchestrator.py` (the `attempts` and
`artifacts` dictionaries are flattened into fields; `created_at` is
outside the model). -/
structure RequestState where
  request_id : String
  user_request : String
  current_stage : Stage := .initialized
  status : Status := .in_progress
  attempts_generation : Nat := 0
  attempts_syntax_fix : Nat := 0
  attempts_hallucination_fix : Nat := 0
  generated_code : Option String := none
  syntax_result : Option SynResult := none
  hallucination_result : Option HalResult := none
  review_result : Option ReviewStored := none
  error_messages : List String := []
deriving DecidableEq

/-- Orchestrator retry-budget constants. -/
def MAX_GENERATION_RETRIES : Nat := 3

/-- Orchestrator retry-budget constants. -/
def MAX_SYNTAX_RETRIES : Nat := 3

/-- Orchestrator retry-budget constants. -/
def MAX_HALLUCINATION_RETRIES : Nat := 3

/-- Declared overall maximum; defined in `orchestrator.py` but never
read anywhere in the code base. -/
def MAX_TOTAL_RETRIES : Nat := 5

/-- `range(1, max_retries + 1)`: the attempt indices of one stage loop. -/
def attemptNumbers (maxRetries : Nat) : List Nat :=
  (List.range maxRetries).map (· + 1)

/-- Python truthiness filter for the `corrected_code` value:
`"corrected_code" in result and result["corrected_code"]` — a present
but empty string counts as absent. -/
def truthyOpt : Option String → Option String
  | some c => if c = "" then none else some c
  | none => none

/-- `_format_syntax_errors`: renders the validator's error list into the
feedback brief appended to `error_messages`. -/
def formatSyntaxErrors (errors : List SynError) : String :=
  (errors.enumFrom 1).foldl
    (fun acc p =>
      acc ++ toString p.1 ++ ". Line " ++ p.2.line.getD "?" ++ ": "
          ++ p.2.issue.getD "Unknown issue" ++ "\n"
          ++ "   Fix: " ++ p.2.fix.getD "No suggestion" ++ "\n")
    "Syntax Errors Found:\n"

/-- `_format_hallucination_errors`: renders the detector's issue list
into the feedback brief appended to `error_messages`. -/
def formatHallucinationErrors (hs : List Hallucination) : String :=
  (hs.enumFrom 1).foldl
    (fun acc p =>
      acc ++ toString p.1 ++ ". " ++ p.2.type.getD "Unknown" ++ ": "
          ++ p.2.referenced.getD "Unknown" ++ "\n"
          ++ "   Issue: " ++ p.2.issue.getD "Does not exist" ++ "\n"
          ++ "   Suggestion: " ++ p.2.suggestion.getD "Remove or replace" ++ "\n")
    "Hallucinations Detected:\n"

/-- The retry loop of `_run_code_generation`, recursing over the list of
remaining attempt indices.  Mirrors lines 172–207 of `orchestrator.py`:
sets `attempts["generation"] = attempt`, attaches
`previous_attempt`/`feedback` when `attempt > 1 and state.error_messages`,
calls the generation service, and on success stores the code;
failures and exceptions append to `error_messages` and continue. -/
def genAttempts (o : Oracle) : List Nat → RequestState → World → Bool × RequestState × World
  | [], st, w => (false, st, w)
  | attempt :: rest, st, w =>
    let st := { st with attempts_generation := attempt }
    let isRetry := decide (1 < attempt) && !st.error_messages.isEmpty
    let req : GenRequest := {
      request := st.user_request
      previous_attempt := if isRetry then some st.generated_code else none
      feedback := if isRetry then st.error_messages.getLast? else none }
    let call : GenCall := { attempt := attempt, req := req, errorLogAtCall := st.error_messages }
    let res := o.gen w.genCalls
    let w := { w with genCalls := w.genCalls + 1, genLog := w.genLog ++ [call] }
    match res with
    | .success code => (true, { st with generated_code := some code }, w)
    | .failure err =>
      genAttempts o rest
        { st with error_messages :=
            st.error_messages ++ ["Generation error: " ++ err.getD "Unknown error"] } w
    | .exc msg =>
      genAttempts o rest
        { st with error_messages :=
            st.error_messages ++ ["Generation exception: " ++ msg] } w

/-- `_run_code_generation`: enters the `CODE_GENERATION` stage and runs
the attempt loop with a fresh `range(1, MAX_GENERATION_RETRIES + 1)`. -/
def runCodeGeneration (o : Oracle) (st : RequestState) (w : World) :
    Bool × RequestState × World :=
  genAttempts o (attemptNumbers MAX_GENERATION_RETRIES)
    { st with current_stage := .code_generation } w

/-- The retry loop of `_run_syntax_validation` (lines 219–257): each pass
validates the current candidate; a valid verdict succeeds; an invalid
verdict with a truthy `corrected_code` adopts the correction and loops;
otherwise the formatted errors are appended and `_run_code_generation`
is re-invoked — its failure fails the stage immediately; a raised
exception appends a log entry and loops. -/
def synAttempts (o : Oracle) : List Nat → RequestState → World → Bool × RequestState × World
  | [], st, w => (false, st, w)
  | attempt :: rest, st, w =>
    let st := { st with attempts_syntax_fix := attempt }
    let res := o.syn w.synCalls st.generated_code
    let w := { w with synCalls := w.synCalls + 1,
                      synLog := w.synLog ++ [(st.generated_code, res)] }
    match res with
    | .valid => (true, { st with syntax_result := some .valid }, w)
    | .invalid errs corrected =>
      let st := { st with syntax_result := some (.invalid errs corrected) }
      match truthyOpt corrected with
      | some c => synAttempts o rest { st with generated_code := some c } w
      | none =>
        let st := { st with error_messages :=
          st.error_messages ++ [formatSyntaxErrors errs] }
        match runCodeGeneration o st w with
        | (true, st, w) => synAttempts o rest st w
        | (false, st, w) => (false, st, w)
    | .exc msg =>
      synAttempts o rest
        { st with error_messages :=
            st.error_messages ++ ["Syntax validation exception: " ++ msg] } w

/-- `_run_syntax_validation`: enters the `SYNTAX_CHECK` stage and runs
the pass loop. -/
def runSyntaxValidation (o : Oracle) (st : RequestState) (w : World) :
    Bool × RequestState × World :=
  synAttempts o (attemptNumbers MAX_SYNTAX_RETRIES)
    { st with current_stage := .syntax_check } w

/-- The retry loop of `_run_hallucination_detection` (lines 269–301):
each pass verifies the current candidate; `VERIFIED` succeeds; any
detection appends the formatted issues and re-invokes
`_run_code_generation` — its failure fails the stage immediately; a
raised exception appends a log entry and loops. -/
def halAttempts (o : Oracle) : List Nat → RequestState → World → Bool × RequestState × World
  | [], st, w => (false, st, w)
  | attempt :: rest, st, w =>
    let st := { st with attempts_hallucination_fix := attempt }
    let res := o.hal w.halCalls st.generated_code
    let w := { w with halCalls := w.halCalls + 1,
                      halLog := w.halLog ++ [(st.generated_code, res)] }
    match res with
    | .verified => (true, { st with hallucination_result := some .verified }, w)
    | .detected hs =>
      let st := { st with hallucination_result := some (.detected hs) }
      let st := { st with error_messages :=
        st.error_messages ++ [formatHallucinationErrors hs] }
      match runCodeGeneration o st w with
      | (true, st, w) => halAttempts o rest st w
      | (false, st, w) => (false, st, w)
    | .exc msg =>
      halAttempts o rest
        { st with error_messages :=
            st.error_messages ++ ["Hallucination detection exception: " ++ msg] } w

/-- `_run_hallucination_detection`: enters the `HALLUCINATION_CHECK`
stage and runs the pass loop. -/
def runHallucinationDetection (o : Oracle) (st : RequestState) (w : World) :
    Bool × RequestState × World :=
  halAttempts o (attemptNumbers MAX_HALLUCINATION_RETRIES)
    { st with current_stage := .hallucination_check } w

/-- `_run_code_review` (lines 303–324): one reviewer call; the result —
or, on a raised exception, an `{"status": "error", "error": msg}`
record — is stored into `artifacts["review_result"]`.  Always returns
(never fails the pipeline). -/
def runCodeReview (o : Oracle) (st : RequestState) : RequestState :=
  let st := { st with current_stage := .code_review }
  match o.rev st.generated_code with
  | .ok r => { st with review_result := some (.result r) }
  | .exc msg => { st with review_result := some (.errorRecord msg) }

/-- The `score` field of the success payload's review entry:
`review.get("score", "N/A")`. -/
inductive ReviewScore
  | fromScore (v : ScoreV)
  | na
deriving DecidableEq

/-- The review entry of the success payload's `validation` section. -/
structure ReviewEntry where
  status : String
  score : ReviewScore
  summary : String
deriving DecidableEq

/-- The `validation` section of the success payload. -/
structure Validation where
  syntax_status : String
  syntax_details : String
  hallucination_status : String
  hallucination_details : String
  review : Option ReviewEntry
deriving DecidableEq

/-- The `metadata` section of the success payload (timestamps omitted). -/
structure SuccessMeta where
  total_attempts : Nat
  generation_attempts : Nat
  syntax_fix_attempts : Nat
  hallucination_fix_attempts : Nat
deriving DecidableEq

/-- The `metadata` section of the failure payload (timestamps omitted). -/
structure FailureMeta where
  failed_at_stage : String
  total_attempts : Nat
  generation_attempts : Nat
  syntax_fix_attempts : Nat
  hallucination_fix_attempts : Nat
deriving DecidableEq

/-- Union of the success and failure payload dictionaries returned by
`generate_code`; a `none` field models an absent key, so the two
shapes are distinguishable predicates over one type. -/
structure Response where
  request_id : String
  status : String
  code : Option (Option String) := none
  validation : Option Validation := none
  success_metadata : Option SuccessMeta := none
  review_details : Option ReviewStored := none
  error : Option String := none
  errors : Option (List String) := none
  last_attempt : Option (Option String) := none
  failure_metadata : Option FailureMeta := none
deriving DecidableEq

/-- `sum(state.attempts.values())`. -/
def totalAttempts (st : RequestState) : Nat :=
  st.attempts_generation + st.attempts_syntax_fix + st.attempts_hallucination_fix

/-- The review entry built by `_compile_success_response` from a stored
review artifact: fixed `"✅ Completed"` status, `score`/`summary` read
with `.get` defaults `"N/A"`/`""` (absent on the error record). -/
def reviewEntryOf : ReviewStored → ReviewEntry
  | .result r =>
    { status := "✅ Completed"
      score := match r.score with
        | some v => .fromScore v
        | none => .na
      summary := r.summary.getD "" }
  | .errorRecord _ => { status := "✅ Completed", score := .na, summary := "" }

/-- `_compile_success_response` (lines 345–381). -/
def compileSuccessResponse (st : RequestState) : Response :=
  let val0 : Validation := {
    syntax_status := "✅ Valid"
    syntax_details := "Python syntax validated successfully"
    hallucination_status := "✅ Verified"
    hallucination_details := "All imports and functions verified"
    review := none }
  let meta : SuccessMeta := {
    total_attempts := totalAttempts st
    generation_attempts := st.attempts_generation
    syntax_fix_attempts := st.attempts_syntax_fix
    hallucination_fix_attempts := st.attempts_hallucination_fix }
  match st.review_result with
  | some stored =>
    if reviewTruthy stored then
      { request_id := st.request_id, status := "success"
        code := some st.generated_code
        validation := some { val0 with review := some (reviewEntryOf stored) }
        success_metadata := some meta
        review_details := some stored }
    else
      { request_id := st.request_id, status := "success"
        code := some st.generated_code
        validation := some val0
        success_metadata := some meta }
  | none =>
    { request_id := st.request_id, status := "success"
      code := some st.generated_code
      validation := some val0
      success_metadata := some meta }

/-- `_compile_failure_response` (lines 383–400). -/
def compileFailureResponse (st : RequestState) : Response :=
  { request_id := st.request_id
    status := "failed"
    error := some "Failed to generate valid code"
    errors := some st.error_messages
    last_attempt := some st.generated_code
    failure_metadata := some {
      failed_at_stage := st.current_stage.value
      total_attempts := totalAttempts st
      generation_attempts := st.attempts_generation
      syntax_fix_attempts := st.attempts_syntax_fix
      hallucination_fix_attempts := st.attempts_hallucination_fix } }

/-- The fresh `RequestState` created at the top of `generate_code`
(the uuid is a parameter of the model). -/
def initState (id req : String) : RequestState :=
  { request_id := id, user_request := req }

/-- `generate_code` (lines 115–160): the four stages in order, stopping
at the first failing stage with a failure payload; on full completion
the state is marked completed and a success payload is compiled.
Nothing in the embedded stage functions can raise, so the outer
`try/except` of the Python code is unreachable here. -/
def generateCode (o : Oracle) (enableReview : Bool) (id req : String) :
    Response × RequestState × World :=
  let r1 := runCodeGeneration o (initState id req) {}
  if r1.1 then
    let r2 := runSyntaxValidation o r1.2.1 r1.2.2
    if r2.1 then
      let r3 := runHallucinationDetection o r2.2.1 r2.2.2
      if r3.1 then
        let st := if enableReview then runCodeReview o r3.2.1 else r3.2.1
        let st := { st with status := .completed, current_stage := .completed }
        (compileSuccessResponse st, st, r3.2.2)
      else (compileFailureResponse r3.2.1, r3.2.1, r3.2.2)
    else (compileFailureResponse r2.2.1, r2.2.1, r2.2.2)
  else (compileFailureResponse r1.2.1, r1.2.1, r1.2.2)

/-- The dictionary produced by `RequestState.to_dict`: the state's fields
with the two enums replaced by their `.value` strings. -/
structure StateDict where
  request_id : String
  user_request : String
  current_stage : String
  status : String
  attempts_generation : Nat
  attempts_syntax_fix : Nat
  attempts_hallucination_fix : Nat
  generated_code : Option String
  syntax_result : Option SynResult
  hallucination_result : Option HalResult
  review_result : Option ReviewStored
  error_messages : List String
deriving DecidableEq

/-- `RequestState.to_dict`. -/
def RequestState.toDict (st : RequestState) : StateDict :=
  { request_id := st.request_id
    user_request := st.user_request
    current_stage := st.current_stage.value
    status := st.status.value
    attempts_generation := st.attempts_generation
    attempts_syntax_fix := st.attempts_syntax_fix
    attempts_hallucination_fix := st.attempts_hallucination_fix
    generated_code := st.generated_code
    syntax_result := st.syntax_result
    hallucination_result := st.hallucination_result
    review_result := st.review_result
    error_messages := st.error_messages }

/-- The orchestrator object: its configuration and the `self.states`
map, modelled as an association list where insertion prepends (the
first hit wins on lookup, matching dict overwrite semantics). -/
structure Orch where
  enable_code_review : Bool := true
  states : List (String × RequestState) := []

/-- `get_state`: a pure lookup returning the state's dictionary
snapshot, or `none` for an unknown id. -/
def getState (orch : Orch) (id : String) : Option StateDict :=
  match orch.states.lookup id with
  | some st => some st.toDict
  | none => none

/-- `submit` (the public entry point wrapping `generate_code`): runs the
pipeline and records the request's final state in `self.states`. -/
def submit (orch : Orch) (o : Oracle) (id req : String) : Orch × Response :=
  let r := generateCode o orch.enable_code_review id req
  ({ orch with states := (id, r.2.1) :: orch.states }, r.1)

/-- A sequence of `get_state` calls against the orchestrator, returning
the final orchestrator value and the outputs in order. -/
def runLookups (orch : Orch) : List String → Orch × List (Option StateDict)
  | [] => (orch, [])
  | id :: rest =>
    let out := getState orch id
    let r := runLookups orch rest
    (r.1, out :: r.2)

/-- The success payload shape of `_compile_success_response`: `status`
is `"success"`, the success keys are present, the failure keys absent. -/
def isSuccessShape (r : Response) : Prop :=
  r.status = "success" ∧ r.code.isSome ∧ r.validation.isSome ∧
  r.success_metadata.isSome ∧ r.error = none ∧ r.errors = none ∧
  r.last_attempt = none ∧ r.failure_metadata = none

/-- The failure payload shape of `_compile_failure_response`: `status`
is `"failed"`, the failure keys are present, the success keys absent. -/
def isFailureShape (r : Response) : Prop :=
  r.status = "failed" ∧ r.error.isSome ∧ r.errors.isSome ∧
  r.last_attempt.isSome ∧ r.failure_metadata.isSome ∧
  r.code = none ∧ r.validation = none ∧ r.success_metadata = none ∧
  r.review_details = none

lemma genAttempts_stage (o : Oracle) (l : List Nat) (st : RequestState) (w : World) :
    (genAttempts o l st w).2.1.current_stage = st.current_stage := by
  induction l generalizing st w with
  | nil => rfl
  | cons a rest ih =>
    simp only [genAttempts]
    cases hres : o.gen w.genCalls <;> simp [hres, ih]

lemma genAttempts_world (o : Oracle) (l : List Nat) (st : RequestState) (w : World) :
    (genAttempts o l st w).2.2.synCalls = w.synCalls ∧
    (genAttempts o l st w).2.2.halCalls = w.halCalls ∧
    (genAttempts o l st w).2.2.synLog = w.synLog ∧
    (genAttempts o l st w).2.2.halLog = w.halLog := by
  induction l generalizing st w with
  | nil => exact ⟨rfl, rfl, rfl, rfl⟩
  | cons a rest ih =>
    simp only [genAttempts]
    cases hres : o.gen w.genCalls <;> simp [hres, ih]

lemma genAttempts_ag_mem (o : Oracle) (l : List Nat) (st : RequestState) (w : World)
    (h : l ≠ []) :
    (genAttempts o l st w).2.1.attempts_generation ∈ l := by
  induction l generalizing st w with
  | nil => exact absurd rfl h
  | cons a rest ih =>
    simp only [genAttempts]
    cases hres : o.gen w.genCalls with
    | success code => simp [hres]
    | failure err =>
      cases rest with
      | nil => simp [hres, genAttempts]
      | cons b r2 => simp only [hres]; exact List.mem_cons_of_mem _ (ih _ _ (by simp))
    | exc msg =>
      cases rest with
      | nil => simp [hres, genAttempts]
      | cons b r2 => simp only [hres]; exact List.mem_cons_of_mem _ (ih _ _ (by simp))

lemma runCodeGeneration_ag (o : Oracle) (st : RequestState) (w : World) :
    1 ≤ (runCodeGeneration o st w).2.1.attempts_generation := by
  have h := genAttempts_ag_mem o (attemptNumbers MAX_GENERATION_RETRIES)
    { st with current_stage := .code_generation } w (by decide)
  have hp : ∀ x ∈ attemptNumbers MAX_GENERATION_RETRIES, 1 ≤ x := by decide
  exact hp _ h

lemma runCodeGeneration_stage (o : Oracle) (st : RequestState) (w : World) :
    (runCodeGeneration o st w).2.1.current_stage = .code_generation := by
  unfold runCodeGeneration
  rw [genAttempts_stage]

lemma getLast?_snoc {α : Type} (l : List α) (a : α) : (l ++ [a]).getLast? = some a := by
  simp

lemma runCodeGeneration_synLog (o : Oracle) (st : RequestState) (w : World) :
    (runCodeGeneration o st w).2.2.synLog = w.synLog :=
  (genAttempts_world o _ _ w).2.2.1

lemma runCodeGeneration_halLog (o : Oracle) (st : RequestState) (w : World) :
    (runCodeGeneration o st w).2.2.halLog = w.halLog :=
  (genAttempts_world o _ _ w).2.2.2

lemma synAttempts_ag (o : Oracle) (l : List Nat) (st : RequestState) (w : World)
    (hag : 1 ≤ st.attempts_generation) :
    1 ≤ (synAttempts o l st w).2.1.attempts_generation := by
  induction l generalizing st w with
  | nil => exact hag
  | cons a rest ih =>
    simp only [synAttempts]
    split
    · exact hag
    · split
      · exact ih _ _ hag
      · split
        · rename_i st2 w2 heq
          exact ih st2 w2 (le_of_le_of_eq (runCodeGeneration_ag o _ _)
            (congrArg (fun p => p.2.1.attempts_generation) heq))
        · rename_i st2 w2 heq
          exact le_of_le_of_eq (runCodeGeneration_ag o _ _)
            (congrArg (fun p => p.2.1.attempts_generation) heq)
    · exact ih _ _ hag

lemma halAttempts_ag (o : Oracle) (l : List Nat) (st : RequestState) (w : World)
    (hag : 1 ≤ st.attempts_generation) :
    1 ≤ (halAttempts o l st w).2.1.attempts_generation := by
  induction l generalizing st w with
  | nil => exact hag
  | cons a rest ih =>
    simp only [halAttempts]
    split
    · exact hag
    · split
      · rename_i st2 w2 heq
        exact ih st2 w2 (le_of_le_of_eq (runCodeGeneration_ag o _ _)
          (congrArg (fun p => p.2.1.attempts_generation) heq))
      · rename_i st2 w2 heq
        exact le_of_le_of_eq (runCodeGeneration_ag o _ _)
          (congrArg (fun p => p.2.1.attempts_generation) heq)
    · exact ih _ _ hag

lemma synAttempts_last (o : Oracle) (l : List Nat) (st : RequestState) (w : World) :
    (synAttempts o l st w).1 = true →
    (synAttempts o l st w).2.2.synLog.getLast? =
      some ((synAttempts o l st w).2.1.generated_code, SynResult.valid) := by
  induction l generalizing st w with
  | nil => intro h; simp [synAttempts] at h
  | cons a rest ih =>
    simp only [synAttempts]
    split
    · rename_i heq
      intro _
      rw [heq]
      exact getLast?_snoc _ _
    · split
      · exact ih _ _
      · split
        · rename_i st2 w2 heq
          exact ih st2 w2
        · intro h; simp at h
    · exact ih _ _

lemma halAttempts_last (o : Oracle) (l : List Nat) (st : RequestState) (w : World) :
    (halAttempts o l st w).1 = true →
    (halAttempts o l st w).2.2.halLog.getLast? =
      some ((halAttempts o l st w).2.1.generated_code, HalResult.verified) := by
  induction l generalizing st w with
  | nil => intro h; simp [halAttempts] at h
  | cons a rest ih =>
    simp only [halAttempts]
    split
    · rename_i heq
      intro _
      rw [heq]
      exact getLast?_snoc _ _
    · split
      · rename_i st2 w2 heq
        exact ih st2 w2
      · intro h; simp at h
    · exact ih _ _

lemma snd_snd_synLog_of_eq {p : Bool × RequestState × World} {b : Bool}
    {st2 : RequestState} {w2 : World} (h : p = (b, st2, w2)) :
    w2.synLog = p.2.2.synLog := by rw [h]

lemma halAttempts_synLog (o : Oracle) (l : List Nat) (st : RequestState) (w : World) :
    (halAttempts o l st w).2.2.synLog = w.synLog := by
  induction l generalizing st w with
  | nil => rfl
  | cons a rest ih =>
    simp only [halAttempts]
    split
    · rfl
    · split
      · rename_i st2 w2 heq
        have h2 := snd_snd_synLog_of_eq heq
        exact (ih st2 w2).trans ((h2.trans (runCodeGeneration_synLog o _ _)).trans (by rfl))
      · rename_i st2 w2 heq
        have h2 := snd_snd_synLog_of_eq heq
        exact (h2.trans (runCodeGeneration_synLog o _ _)).trans (by rfl)
    · exact ih _ _

lemma isSuccessShape_compile (st : RequestState) :
    isSuccessShape (compileSuccessResponse st) := by
  unfold compileSuccessResponse isSuccessShape
  cases hrr : st.review_result with
  | none => simp
  | some stored =>
    by_cases ht : reviewTruthy stored = true
    · simp [ht]
    · simp [ht]

lemma isFailureShape_compile (st : RequestState) :
    isFailureShape (compileFailureResponse st) := by
  unfold compileFailureResponse isFailureShape
  simp

lemma compileSuccessResponse_status (st : RequestState) :
    (compileSuccessResponse st).status = "success" := by
  unfold compileSuccessResponse
  cases hrr : st.review_result with
  | none => simp
  | some stored =>
    by_cases ht : reviewTruthy stored = true
    · simp [ht]
    · simp [ht]

/-- C6: For every input request and every behaviour of the collaborator
services (including any of them raising an exception), `generate_code`
never propagates a raw exception: it always returns a structured
payload that is either the success shape or the failure shape. -/
theorem c6_submit_total_shape (o : Oracle) (enableReview : Bool) (id req : String) :
    isSuccessShape (generateCode o enableReview id req).1 ∨
    isFailureShape (generateCode o enableReview id req).1 := by
  simp only [generateCode]
  split
  · split
    · split
      · exact Or.inl (isSuccessShape_compile _)
      · exact Or.inr (isFailureShape_compile _)
    · exact Or.inr (isFailureShape_compile _)
  · exact Or.inr (isFailureShape_compile _)

lemma synAttempts_stage (o : Oracle) (l : List Nat) (st : RequestState) (w : World) :
    (synAttempts o l st w).2.1.current_stage = st.current_stage ∨
    (synAttempts o l st w).2.1.current_stage = .code_generation := by
  induction l generalizing st w with
  | nil => exact Or.inl rfl
  | cons a rest ih =>
    simp only [synAttempts]
    split
    · exact Or.inl rfl
    · split
      · exact ih _ _
      · split
        · rename_i st2 w2 heq
          have h := congrArg (fun p => p.2.1.current_stage) heq
          simp only at h
          rw [runCodeGeneration_stage] at h
          have h2 := ih st2 w2
          rw [← h] at h2
          exact Or.inr (h2.elim id id)
        · rename_i st2 w2 heq
          have h := congrArg (fun p => p.2.1.current_stage) heq
          simp only at h
          rw [runCodeGeneration_stage] at h
          exact Or.inr h.symm
    · exact ih _ _

lemma halAttempts_stage (o : Oracle) (l : List Nat) (st : RequestState) (w : World) :
    (halAttempts o l st w).2.1.current_stage = st.current_stage ∨
    (halAttempts o l st w).2.1.current_stage = .code_generation := by
  induction l generalizing st w with
  | nil => exact Or.inl rfl
  | cons a rest ih =>
    simp only [halAttempts]
    split
    · exact Or.inl rfl
    · split
      · rename_i st2 w2 heq
        have h := congrArg (fun p => p.2.1.current_stage) heq
        simp only at h
        rw [runCodeGeneration_stage] at h
        have h2 := ih st2 w2
        rw [← h] at h2
        exact Or.inr (h2.elim id id)
      · rename_i st2 w2 heq
        have h := congrArg (fun p => p.2.1.current_stage) heq
        simp only at h
        rw [runCodeGeneration_stage] at h
        exact Or.inr h.symm
    · exact ih _ _

lemma runSyntaxValidation_ag (o : Oracle) (st : RequestState) (w : World)
    (h : 1 ≤ st.attempts_generation) :
    1 ≤ (runSyntaxValidation o st w).2.1.attempts_generation :=
  synAttempts_ag o _ _ w h

lemma runHallucinationDetection_ag (o : Oracle) (st : RequestState) (w : World)
    (h : 1 ≤ st.attempts_generation) :
    1 ≤ (runHallucinationDetection o st w).2.1.attempts_generation :=
  halAttempts_ag o _ _ w h

lemma runSyntaxValidation_last (o : Oracle) (st : RequestState) (w : World) :
    (runSyntaxValidation o st w).1 = true →
    (runSyntaxValidation o st w).2.2.synLog.getLast? =
      some ((runSyntaxValidation o st w).2.1.generated_code, SynResult.valid) :=
  synAttempts_last o _ _ w

lemma runHallucinationDetection_last (o : Oracle) (st : RequestState) (w : World) :
    (runHallucinationDetection o st w).1 = true →
    (runHallucinationDetection o st w).2.2.halLog.getLast? =
      some ((runHallucinationDetection o st w).2.1.generated_code, HalResult.verified) :=
  halAttempts_last o _ _ w

lemma runHallucinationDetection_synLog (o : Oracle) (st : RequestState) (w : World) :
    (runHallucinationDetection o st w).2.2.synLog = w.synLog :=
  halAttempts_synLog o _ _ w

lemma runSyntaxValidation_stage (o : Oracle) (st : RequestState) (w : World) :
    (runSyntaxValidation o st w).2.1.current_stage = Stage.syntax_check ∨
    (runSyntaxValidation o st w).2.1.current_stage = Stage.code_generation :=
  synAttempts_stage o _ _ w

lemma runHallucinationDetection_stage (o : Oracle) (st : RequestState) (w : World) :
    (runHallucinationDetection o st w).2.1.current_stage = Stage.hallucination_check ∨
    (runHallucinationDetection o st w).2.1.current_stage = Stage.code_generation :=
  halAttempts_stage o _ _ w

lemma runCodeReview_preserve (o : Oracle) (st : RequestState) :
    (runCodeReview o st).attempts_generation = st.attempts_generation ∧
    (runCodeReview o st).generated_code = st.generated_code := by
  simp only [runCodeReview]
  split <;> exact ⟨rfl, rfl⟩

/-- C7: adopting a validator-supplied auto-corrected candidate replaces
the candidate and loops to the next pass without touching the generation
counter, the generation-call counter or the generation-call log. -/
theorem c7_autocorrect_frame (o : Oracle) (st : RequestState) (w : World)
    (a : Nat) (rest : List Nat) (errs : List SynError) (corrected : Option String)
    (c : String)
    (hres : o.syn w.synCalls st.generated_code = .invalid errs corrected)
    (hc : truthyOpt corrected = some c) :
    synAttempts o (a :: rest) st w =
      synAttempts o rest
        { st with attempts_syntax_fix := a,
                  syntax_result := some (.invalid errs corrected),
                  generated_code := some c }
        { w with synCalls := w.synCalls + 1,
                 synLog := w.synLog ++ [(st.generated_code, .invalid errs corrected)] } ∧
    ({ st with attempts_syntax_fix := a,
               syntax_result := some (.invalid errs corrected),
               generated_code := some c } : RequestState).attempts_generation
      = st.attempts_generation ∧
    ({ w with synCalls := w.synCalls + 1,
              synLog := w.synLog ++ [(st.generated_code, .invalid errs corrected)] }
        : World).genCalls = w.genCalls ∧
    ({ w with synCalls := w.synCalls + 1,
              synLog := w.synLog ++ [(st.generated_code, .invalid errs corrected)] }
        : World).genLog = w.genLog := by
  refine ⟨?_, rfl, rfl, rfl⟩
  simp only [synAttempts, hres, hc]

/-- C10: the success payload's review entry always carries the fixed
status `"✅ Completed"` whenever a truthy review artifact is stored, and
on a reviewer error record it reports score `"N/A"` and empty summary. -/
theorem c10_review_entry (st : RequestState) (stored : ReviewStored)
    (hst : st.review_result = some stored) (ht : reviewTruthy stored = true) :
    (compileSuccessResponse st).validation.map Validation.review
      = some (some (reviewEntryOf stored)) ∧
    (reviewEntryOf stored).status = "✅ Completed" ∧
    (∀ msg, stored = .errorRecord msg →
      (reviewEntryOf stored).score = .na ∧ (reviewEntryOf stored).summary = "") := by
  refine ⟨?_, ?_, ?_⟩
  · unfold compileSuccessResponse
    rw [hst]
    simp [ht]
  · cases stored <;> rfl
  · intro msg hmsg
    subst hmsg
    exact ⟨rfl, rfl⟩

/-- Collaborator behaviour realising the spec's C1 scenario: generation
always succeeds at once; syntax always valid; the reference verifier
detects one non-existent module on its first pass and verifies on the
second; the reviewer succeeds. -/
def oC1scenario : Oracle := {
  gen := fun n => .success ("g" ++ toString n)
  syn := fun _ _ => .valid
  hal := fun i _ =>
    if i = 0 then .detected [{ referenced := some "fake_module" }] else .verified
  rev := fun _ => .ok { score := some (.num 8), summary := some "ok" } }

/-- C1 counterexample: in the claim's own scenario (reference verifier
detects an issue on pass 1, the re-invoked generation succeeds on its
first attempt, pass 2 verifies clean) the run succeeds with
`hallucination_fix_attempts = 2` but `generation_attempts = 1`, not 2:
the per-stage counter was overwritten by the re-entered stage's loop
index. -/
theorem c1_counterexample :
    (generateCode oC1scenario true "req-1" "demo").1.status = "success" ∧
    (generateCode oC1scenario true "req-1" "demo").2.2.halLog.map Prod.snd
      = [.detected [{ referenced := some "fake_module" }], .verified] ∧
    (generateCode oC1scenario true "req-1" "demo").2.2.genLog.map GenCall.attempt
      = [1, 1] ∧
    (generateCode oC1scenario true "req-1" "demo").2.1.attempts_hallucination_fix = 2 ∧
    (generateCode oC1scenario true "req-1" "demo").1.success_metadata.map
      SuccessMeta.generation_attempts = some 1 ∧
    (generateCode oC1scenario true "req-1" "demo").1.success_metadata.map
      SuccessMeta.generation_attempts ≠ some 2 := by
  exact ⟨by decide, by decide, by decide, by decide, by decide, by decide⟩

/-- C1 amended: each entry of `attempts` holds the 1-based attempt index
of the most recent invocation of that stage's retry loop: the generation
counter is overwritten (independent of its previous value) on every
(re-)entry into the generation stage and afterwards lies in
`range(1, MAX_GENERATION_RETRIES + 1)`; in the claim's scenario the
final `generation_attempts` is therefore 1, not 2. -/
theorem c1_amended_counter_reset :
    (∀ (o : Oracle) (st : RequestState) (w : World) (n : Nat),
      runCodeGeneration o { st with attempts_generation := n } w
        = runCodeGeneration o st w) ∧
    (∀ (o : Oracle) (st : RequestState) (w : World),
      (runCodeGeneration o st w).2.1.attempts_generation
        ∈ attemptNumbers MAX_GENERATION_RETRIES) ∧
    (generateCode oC1scenario true "req-1" "demo").2.1.attempts_generation = 1 := by
  refine ⟨fun o st w n => rfl, fun o st w => ?_, by decide⟩
  exact genAttempts_ag_mem o (attemptNumbers MAX_GENERATION_RETRIES)
    { st with current_stage := .code_generation } w (by decide)

/-- Deterministic syntax-validator behaviour used in the C2
counterexample: accepts exactly the candidate `"good"`. -/
def mySynC2 : Option String → SynResult := fun c =>
  if c = some "good" then .valid else .invalid [] none

/-- Collaborator behaviour for the C2 counterexample: the first
generation yields `"good"` (which the validator accepts), the
reference verifier rejects it once, the regenerated candidate `"bad"`
is then reference-verified — but `"bad"` is never handed back to the
syntax validator, which would reject it. -/
def oC2run : Oracle := {
  gen := fun n => if n = 0 then .success "good" else .success "bad"
  syn := fun _ c => mySynC2 c
  hal := fun i _ => if i = 0 then .detected [] else .verified
  rev := fun _ => .ok {} }

/-- C2 counterexample: a successful run whose final candidate `"bad"`
is not accepted by the (deterministic) syntax validator; the syntax
call log shows the validator only ever saw `"good"`. -/
theorem c2_counterexample :
    (generateCode oC2run true "req-2" "demo").1.status = "success" ∧
    (generateCode oC2run true "req-2" "demo").1.code = some (some "bad") ∧
    mySynC2 (some "bad") ≠ .valid ∧
    (generateCode oC2run true "req-2" "demo").2.2.synLog
      = [(some "good", .valid)] := by
  exact ⟨by decide, by decide, by decide, by decide⟩

/-- Collaborator behaviour for the C3 counterexample: generation always
succeeds, the syntax validator always reports errors without a
correction, the reference verifier would verify anything. -/
def oC3run : Oracle := {
  gen := fun n => .success ("g" ++ toString n)
  syn := fun _ _ => .invalid [] none
  hal := fun _ _ => .verified
  rev := fun _ => .ok {} }

/-- C3 counterexample: the syntax-validation stage exhausts its three
passes (each one re-invoking generation, which succeeds), yet the
failure payload attributes the failure to `"code_generation"`, not
`"syntax_check"`: the mid-stage re-invocation overwrote
`current_stage`. -/
theorem c3_counterexample :
    (generateCode oC3run true "req-3" "demo").1.status = "failed" ∧
    (generateCode oC3run true "req-3" "demo").2.1.attempts_syntax_fix = 3 ∧
    (generateCode oC3run true "req-3" "demo").2.2.synLog.length = 3 ∧
    (generateCode oC3run true "req-3" "demo").1.failure_metadata.map
      FailureMeta.failed_at_stage = some "code_generation" ∧
    (generateCode oC3run true "req-3" "demo").1.failure_metadata.map
      FailureMeta.failed_at_stage ≠ some "syntax_check" := by
  exact ⟨by decide, by decide, by decide, by decide, by decide⟩

/-- Collaborator behaviour under which every stage consumes its full
budget but the run still succeeds: generation needs all three attempts
on each (re-)invocation, and both validators fail twice before
accepting. -/
def oC4run : Oracle := {
  gen := fun n => if n % 3 = 2 then .success ("c" ++ toString n) else .failure none
  syn := fun i _ => if i < 2 then .invalid [] none else .valid
  hal := fun i _ => if i < 2 then .detected [] else .verified
  rev := fun _ => .ok {} }

/-- C4: there is a sequence of collaborator responses under which one
request performs 15 generation-service calls — exceeding the declared
`MAX_TOTAL_RETRIES = 5` — and the pipeline still runs to a successful
completion: no check against the declared overall maximum ever aborts
it. -/
theorem c4_no_global_cap :
    ∃ o : Oracle,
      (generateCode o true "req-4" "demo").2.2.genCalls = 15 ∧
      MAX_TOTAL_RETRIES < (generateCode o true "req-4" "demo").2.2.genCalls ∧
      (generateCode o true "req-4" "demo").1.status = "success" :=
  ⟨oC4run, by decide, by decide, by decide⟩

/-- Collaborator behaviour for the C8 counterexample: the first syntax
pass reports an uncorrectable error, forcing one re-invocation of
generation, which succeeds at once. -/
def oC8run : Oracle := {
  gen := fun n => .success ("g" ++ toString n)
  syn := fun i _ => if i = 0 then .invalid [] none else .valid
  hal := fun _ _ => .verified
  rev := fun _ => .ok {} }

/-- C8 counterexample: the generation call re-invoked after a syntax
failure (the second entry of the generation-call log) is made with a
non-empty error log but carries neither `feedback` nor
`previous_attempt`: its attempt index inside the re-invoked stage is 1,
and the code only attaches feedback when that index exceeds 1. -/
theorem c8_counterexample :
    (generateCode oC8run true "req-8" "demo").1.status = "success" ∧
    ((generateCode oC8run true "req-8" "demo").2.2.genLog.getD 1
      { attempt := 0, req := { request := "" }, errorLogAtCall := [] }).attempt = 1 ∧
    ((generateCode oC8run true "req-8" "demo").2.2.genLog.getD 1
      { attempt := 0, req := { request := "" }, errorLogAtCall := [] }).req.feedback
      = none ∧
    ((generateCode oC8run true "req-8" "demo").2.2.genLog.getD 1
      { attempt := 0, req := { request := "" }, errorLogAtCall := [] }).req.previous_attempt
      = none ∧
    ((generateCode oC8run true "req-8" "demo").2.2.genLog.getD 1
      { attempt := 0, req := { request := "" }, errorLogAtCall := [] }).errorLogAtCall
      ≠ [] := by
  exact ⟨by decide, by decide, by decide, by decide, by decide⟩

lemma compileSuccessResponse_not_failed (st : RequestState) :
    ¬ ((compileSuccessResponse st).status = "failed") := by
  rw [compileSuccessResponse_status]
  decide

lemma compileFailureResponse_not_success (st : RequestState) :
    ¬ ((compileFailureResponse st).status = "success") := by
  intro hcontra
  have h2 : ("failed" : String) = "success" := hcontra
  exact absurd h2 (by decide)

/-- C2 amended: every successful run has `attempt_counts.generation ≥ 1`
and a final candidate that is fully reference-verified (the last
reference-verifier call was on the final candidate and returned
`VERIFIED`); the syntax validator accepted the candidate current at the
end of the syntax stage (the last syntax call returned valid), but that
candidate is not necessarily the final one: a candidate regenerated
during the hallucination stage is never re-validated. -/
theorem c2_amended_success_guarantees (o : Oracle) (er : Bool) (id req : String)
    (h : (generateCode o er id req).1.status = "success") :
    1 ≤ (generateCode o er id req).2.1.attempts_generation ∧
    (generateCode o er id req).2.2.halLog.getLast?
      = some ((generateCode o er id req).2.1.generated_code, HalResult.verified) ∧
    (∃ c, (generateCode o er id req).2.2.synLog.getLast? = some (c, SynResult.valid)) := by
  simp only [generateCode] at h ⊢
  set r1 := runCodeGeneration o (initState id req) {} with hr1
  set r2 := runSyntaxValidation o r1.2.1 r1.2.2 with hr2
  set r3 := runHallucinationDetection o r2.2.1 r2.2.2 with hr3
  split at h
  · rename_i hc1
    split at h
    · rename_i hc2
      split at h
      · rename_i hc3
        rw [if_pos hc1, if_pos hc2, if_pos hc3]
        have hag3 : 1 ≤ r3.2.1.attempts_generation := by
          rw [hr3]
          refine runHallucinationDetection_ag o _ _ ?_
          rw [hr2]
          refine runSyntaxValidation_ag o _ _ ?_
          rw [hr1]
          exact runCodeGeneration_ag o _ _
        have hhal := runHallucinationDetection_last o r2.2.1 r2.2.2 (hr3 ▸ hc3)
        rw [← hr3] at hhal
        have hsyn := runSyntaxValidation_last o r1.2.1 r1.2.2 (hr2 ▸ hc2)
        rw [← hr2] at hsyn
        have hslog : r3.2.2.synLog = r2.2.2.synLog := by
          rw [hr3]; exact runHallucinationDetection_synLog o _ _
        cases er with
        | true =>
          refine ⟨?_, ?_, ?_⟩
          · simp only [if_pos rfl]
            have hp := (runCodeReview_preserve o r3.2.1).1
            show 1 ≤ (runCodeReview o r3.2.1).attempts_generation
            rw [hp]; exact hag3
          · simp only [if_pos rfl]
            have hp := (runCodeReview_preserve o r3.2.1).2
            show r3.2.2.halLog.getLast?
              = some ((runCodeReview o r3.2.1).generated_code, HalResult.verified)
            rw [hp]
            exact hhal
          · refine ⟨r2.2.1.generated_code, ?_⟩
            show r3.2.2.synLog.getLast? = some (r2.2.1.generated_code, SynResult.valid)
            rw [hslog]
            exact hsyn
        | false =>
          refine ⟨?_, ?_, ?_⟩
          · simpa using hag3
          · exact hhal
          · refine ⟨r2.2.1.generated_code, ?_⟩
            show r3.2.2.synLog.getLast? = some (r2.2.1.generated_code, SynResult.valid)
            rw [hslog]
            exact hsyn
      · exact absurd h (compileFailureResponse_not_success _)
    · exact absurd h (compileFailureResponse_not_success _)
  · exact absurd h (compileFailureResponse_not_success _)

/-- The stage-1 result of a run: `_run_code_generation` from the
freshly created state. -/
def stage1 (o : Oracle) (id req : String) : Bool × RequestState × World :=
  runCodeGeneration o (initState id req) {}

/-- The stage-2 result of a run: `_run_syntax_validation` on stage 1's
outputs. -/
def stage2 (o : Oracle) (id req : String) : Bool × RequestState × World :=
  runSyntaxValidation o (stage1 o id req).2.1 (stage1 o id req).2.2

/-- The stage-3 result of a run: `_run_hallucination_detection` on
stage 2's outputs. -/
def stage3 (o : Oracle) (id req : String) : Bool × RequestState × World :=
  runHallucinationDetection o (stage2 o id req).2.1 (stage2 o id req).2.2

/-- C3 amended: the overall result is `failed` exactly when one of the
three verification stages returns failure, and `failed_at_stage` then
reports the value of `current_stage` at failure time — which is the
failing stage's own name only as long as that stage did not re-invoke
generation after entry; a syntax or hallucination stage that re-entered
generation mid-stage leaves `current_stage = code_generation`, so its
own budget exhaustion is attributed to `code_generation`. -/
theorem c3_amended_failed_stage (o : Oracle) (er : Bool) (id req : String) :
    ((generateCode o er id req).1.status = "failed" ↔
      ¬ ((stage1 o id req).1 = true ∧ (stage2 o id req).1 = true ∧
         (stage3 o id req).1 = true)) ∧
    ((generateCode o er id req).1.status = "failed" →
      (generateCode o er id req).1.failure_metadata.map FailureMeta.failed_at_stage
        = some (generateCode o er id req).2.1.current_stage.value ∧
      ((generateCode o er id req).2.1.current_stage = Stage.code_generation ∨
       (generateCode o er id req).2.1.current_stage = Stage.syntax_check ∨
       (generateCode o er id req).2.1.current_stage = Stage.hallucination_check)) := by
  simp only [generateCode, stage1, stage2, stage3]
  set r1 := runCodeGeneration o (initState id req) {} with hr1
  set r2 := runSyntaxValidation o r1.2.1 r1.2.2 with hr2
  set r3 := runHallucinationDetection o r2.2.1 r2.2.2 with hr3
  by_cases hb1 : r1.1 = true
  · rw [if_pos hb1]
    by_cases hb2 : r2.1 = true
    · rw [if_pos hb2]
      by_cases hb3 : r3.1 = true
      · rw [if_pos hb3]
        constructor
        · constructor
          · intro hf
            exact absurd hf (compileSuccessResponse_not_failed _)
          · intro hn
            exact absurd ⟨hb1, hb2, hb3⟩ hn
        · intro hf
          exact absurd hf (compileSuccessResponse_not_failed _)
      · rw [if_neg hb3]
        constructor
        · constructor
          · intro _
            exact fun hand => hb3 hand.2.2
          · intro _
            rfl
        · intro _
          refine ⟨rfl, ?_⟩
          have hs := runHallucinationDetection_stage o r2.2.1 r2.2.2
          rw [← hr3] at hs
          rcases hs with hs | hs
          · exact Or.inr (Or.inr hs)
          · exact Or.inl hs
    · rw [if_neg hb2]
      constructor
      · constructor
        · intro _
          exact fun hand => hb2 hand.2.1
        · intro _
          rfl
      · intro _
        refine ⟨rfl, ?_⟩
        have hs := runSyntaxValidation_stage o r1.2.1 r1.2.2
        rw [← hr2] at hs
        rcases hs with hs | hs
        · exact Or.inr (Or.inl hs)
        · exact Or.inl hs
  · rw [if_neg hb1]
    constructor
    · constructor
      · intro _
        exact fun hand => hb1 hand.1
      · intro _
        rfl
    · intro _
      refine ⟨rfl, ?_⟩
      have hs := runCodeGeneration_stage o (initState id req) {}
      rw [← hr1] at hs
      exact Or.inl hs

lemma runCodeReview_messages (o : Oracle) (st : RequestState) :
    (runCodeReview o st).error_messages = st.error_messages := by
  simp only [runCodeReview]
  split <;> rfl

/-- C5: for every run in which the first three stages succeeded and
review is enabled, the pipeline terminates with overall status
`success` whatever the review service does; a reviewer fault is caught
and stored into `artifacts["review_result"]` as an error record. -/
theorem c5_review_never_fails (o : Oracle) (id req : String)
    (h1 : (stage1 o id req).1 = true) (h2 : (stage2 o id req).1 = true)
    (h3 : (stage3 o id req).1 = true) :
    (generateCode o true id req).1.status = "success" ∧
    ∃ stored, (generateCode o true id req).2.1.review_result = some stored ∧
      ∀ msg, o.rev (stage3 o id req).2.1.generated_code = RevResult.exc msg →
        stored = ReviewStored.errorRecord msg := by
  simp only [stage1, stage2, stage3] at h1 h2 h3 ⊢
  simp only [generateCode]
  set r1 := runCodeGeneration o (initState id req) {} with hr1
  set r2 := runSyntaxValidation o r1.2.1 r1.2.2 with hr2
  set r3 := runHallucinationDetection o r2.2.1 r2.2.2 with hr3
  rw [if_pos h1, if_pos h2, if_pos h3]
  refine ⟨compileSuccessResponse_status _, ?_⟩
  cases hrev : o.rev r3.2.1.generated_code with
  | ok r =>
    refine ⟨.result r, ?_, ?_⟩
    · show (runCodeReview o r3.2.1).review_result = some (ReviewStored.result r)
      simp only [runCodeReview]
      rw [hrev]
    · intro msg hmsg
      exact RevResult.noConfusion hmsg
  | exc m =>
    refine ⟨.errorRecord m, ?_, ?_⟩
    · show (runCodeReview o r3.2.1).review_result = some (ReviewStored.errorRecord m)
      simp only [runCodeReview]
      rw [hrev]
    · intro msg hmsg
      cases hmsg
      rfl

/-- Collaborator behaviour in which the pipeline succeeds but the
review service raises. -/
def oRevFault : Oracle := {
  gen := fun _ => .success "print(1)"
  syn := fun _ _ => .valid
  hal := fun _ _ => .verified
  rev := fun _ => .exc "review transport failure" }

theorem c5_review_never_fails_witness :
    (generateCode oRevFault true "req-5" "demo").1.status = "success" ∧
    ∃ stored,
      (generateCode oRevFault true "req-5" "demo").2.1.review_result = some stored ∧
      ∀ msg, oRevFault.rev (stage3 oRevFault "req-5" "demo").2.1.generated_code
          = RevResult.exc msg →
        stored = ReviewStored.errorRecord msg :=
  c5_review_never_fails oRevFault "req-5" "demo" (by decide) (by decide) (by decide)

lemma runLookups_spec (orch : Orch) (ids : List String) :
    runLookups orch ids = (orch, ids.map (getState orch)) := by
  induction ids with
  | nil => rfl
  | cons i rest ih => simp [runLookups, ih]

/-- C9: `get_state` is a pure lookup: a sequence of lookups after a
`submit` leaves the orchestrator unchanged and every lookup of a given
id yields the same snapshot (the submitted request's terminal state's
dictionary); an id not in the state map yields `none`. -/
theorem c9_lookup_idempotent (orch : Orch) (o : Oracle) (id req : String)
    (ids : List String) (qid : String)
    (hq : List.lookup qid orch.states = none) (hne : qid ≠ id) :
    (runLookups (submit orch o id req).1 ids).1 = (submit orch o id req).1 ∧
    (runLookups (submit orch o id req).1 ids).2
      = ids.map (getState (submit orch o id req).1) ∧
    getState (submit orch o id req).1 id
      = some (generateCode o orch.enable_code_review id req).2.1.toDict ∧
    getState (submit orch o id req).1 qid = none := by
  refine ⟨?_, ?_, ?_, ?_⟩
  · rw [runLookups_spec]
  · rw [runLookups_spec]
  · simp [submit, getState, List.lookup]
  · have hbeq : (qid == id) = false := beq_eq_false_iff_ne.2 hne
    simp [submit, getState, List.lookup, hbeq, hq]

theorem c9_lookup_idempotent_witness :
    (runLookups (submit {} oRevFault "req-9" "demo").1 ["req-9", "req-9"]).1
      = (submit {} oRevFault "req-9" "demo").1 ∧
    (runLookups (submit {} oRevFault "req-9" "demo").1 ["req-9", "req-9"]).2
      = ["req-9", "req-9"].map (getState (submit {} oRevFault "req-9" "demo").1) ∧
    getState (submit {} oRevFault "req-9" "demo").1 "req-9"
      = some (generateCode oRevFault ({} : Orch).enable_code_review "req-9" "demo").2.1.toDict ∧
    getState (submit {} oRevFault "req-9" "demo").1 "missing" = none :=
  c9_lookup_idempotent {} oRevFault "req-9" "demo" ["req-9", "req-9"] "missing"
    rfl (by decide)

/-- `LogExtends a b`: the error log `b` is the error log `a` with zero
or more entries appended (append-only evolution). -/
def LogExtends (a b : List String) : Prop := ∃ t, b = a ++ t

/-- The contract of the `request_data` built for one generation call:
the first attempt of a (re-)invocation attaches neither `feedback` nor
`previous_attempt`; an attempt with index above 1 attaches both exactly
when the error log is non-empty, with `feedback` equal to the most
recently appended error-log entry at the time of the call. -/
def GenCallOK (gc : GenCall) : Prop :=
  (gc.attempt = 1 → gc.req.previous_attempt = none ∧ gc.req.feedback = none) ∧
  (gc.errorLogAtCall = [] → gc.req.previous_attempt = none ∧ gc.req.feedback = none) ∧
  (1 < gc.attempt → gc.errorLogAtCall ≠ [] →
    gc.req.previous_attempt.isSome = true ∧
    gc.req.feedback = gc.errorLogAtCall.getLast?)

/-- Invariant of the generation-call log: every logged call obeys
`GenCallOK`, the current error log extends every logged snapshot
(append-only), and the logged snapshots are chronologically ordered by
extension. -/
def GenLogInv (log : List GenCall) (cur : List String) : Prop :=
  (∀ gc ∈ log, GenCallOK gc) ∧
  (∀ gc ∈ log, LogExtends gc.errorLogAtCall cur) ∧
  List.Pairwise (fun a b => LogExtends a.errorLogAtCall b.errorLogAtCall) log

lemma logExtends_rfl (a : List String) : LogExtends a a := ⟨[], by simp⟩

lemma logExtends_snoc {a b : List String} (m : String) (h : LogExtends a b) :
    LogExtends a (b ++ [m]) := by
  obtain ⟨t, ht⟩ := h
  exact ⟨t ++ [m], by rw [ht, List.append_assoc]⟩

lemma genLogInv_nil : GenLogInv [] [] := by
  refine ⟨?_, ?_, List.Pairwise.nil⟩ <;> intro gc hgc <;> simp at hgc

lemma genLogInv_snoc_msg {log : List GenCall} {cur : List String} (m : String)
    (h : GenLogInv log cur) : GenLogInv log (cur ++ [m]) :=
  ⟨h.1, fun gc hgc => logExtends_snoc m (h.2.1 gc hgc), h.2.2⟩

lemma genLogInv_append_call {log : List GenCall} {cur : List String} {gc : GenCall}
    (h : GenLogInv log cur) (hok : GenCallOK gc) (hcur : gc.errorLogAtCall = cur) :
    GenLogInv (log ++ [gc]) cur := by
  refine ⟨?_, ?_, ?_⟩
  · intro x hx
    rcases List.mem_append.1 hx with hx | hx
    · exact h.1 x hx
    · rw [List.mem_singleton.1 hx]
      exact hok
  · intro x hx
    rcases List.mem_append.1 hx with hx | hx
    · exact h.2.1 x hx
    · rw [List.mem_singleton.1 hx, hcur]
      exact logExtends_rfl cur
  · refine List.pairwise_append.2 ⟨h.2.2, List.pairwise_singleton _ _, ?_⟩
    intro x hx y hy
    rw [List.mem_singleton.1 hy, hcur]
    exact h.2.1 x hx

lemma genCallOK_build (a : Nat) (st : RequestState) :
    GenCallOK
      { attempt := a
        req := { request := st.user_request
                 previous_attempt :=
                   if (decide (1 < a) && !st.error_messages.isEmpty) = true then
                     some st.generated_code
                   else none
                 feedback :=
                   if (decide (1 < a) && !st.error_messages.isEmpty) = true then
                     st.error_messages.getLast?
                   else none }
        errorLogAtCall := st.error_messages } := by
  refine ⟨?_, ?_, ?_⟩
  · intro ha
    subst ha
    simp
  · intro hempty
    have he : st.error_messages = [] := hempty
    simp [he]
  · intro ha hne
    have hcond : (decide (1 < a) && !st.error_messages.isEmpty) = true := by
      simp [ha, hne]
    simp [hcond]

lemma genAttempts_inv (o : Oracle) (l : List Nat) (st : RequestState) (w : World)
    (h : GenLogInv w.genLog st.error_messages) :
    GenLogInv (genAttempts o l st w).2.2.genLog
      (genAttempts o l st w).2.1.error_messages := by
  induction l generalizing st w with
  | nil => exact h
  | cons a rest ih =>
    simp only [genAttempts]
    split
    · exact genLogInv_append_call h (genCallOK_build a st) rfl
    · exact ih _ _
        (genLogInv_snoc_msg _ (genLogInv_append_call h (genCallOK_build a st) rfl))
    · exact ih _ _
        (genLogInv_snoc_msg _ (genLogInv_append_call h (genCallOK_build a st) rfl))

lemma runCodeGeneration_inv (o : Oracle) (st : RequestState) (w : World)
    (h : GenLogInv w.genLog st.error_messages) :
    GenLogInv (runCodeGeneration o st w).2.2.genLog
      (runCodeGeneration o st w).2.1.error_messages :=
  genAttempts_inv o _ _ w h

lemma inv_of_runCG_eq {o : Oracle} {b : Bool} {st2 : RequestState} {w2 : World}
    {st : RequestState} {w : World}
    (heq : runCodeGeneration o st w = (b, st2, w2))
    (h : GenLogInv w.genLog st.error_messages) :
    GenLogInv w2.genLog st2.error_messages := by
  have h2 := runCodeGeneration_inv o st w h
  rw [heq] at h2
  exact h2

lemma synAttempts_inv (o : Oracle) (l : List Nat) (st : RequestState) (w : World)
    (h : GenLogInv w.genLog st.error_messages) :
    GenLogInv (synAttempts o l st w).2.2.genLog
      (synAttempts o l st w).2.1.error_messages := by
  induction l generalizing st w with
  | nil => exact h
  | cons a rest ih =>
    simp only [synAttempts]
    split
    · exact h
    · split
      · exact ih _ _ h
      · split
        · rename_i st2 w2 heq
          exact ih st2 w2 (inv_of_runCG_eq heq (genLogInv_snoc_msg _ h))
        · rename_i st2 w2 heq
          exact inv_of_runCG_eq heq (genLogInv_snoc_msg _ h)
    · exact ih _ _ (genLogInv_snoc_msg _ h)

lemma halAttempts_inv (o : Oracle) (l : List Nat) (st : RequestState) (w : World)
    (h : GenLogInv w.genLog st.error_messages) :
    GenLogInv (halAttempts o l st w).2.2.genLog
      (halAttempts o l st w).2.1.error_messages := by
  induction l generalizing st w with
  | nil => exact h
  | cons a rest ih =>
    simp only [halAttempts]
    split
    · exact h
    · split
      · rename_i st2 w2 heq
        exact ih st2 w2 (inv_of_runCG_eq heq (genLogInv_snoc_msg _ h))
      · rename_i st2 w2 heq
        exact inv_of_runCG_eq heq (genLogInv_snoc_msg _ h)
    · exact ih _ _ (genLogInv_snoc_msg _ h)

/-- C8 amended: the error log is append-only and chronological (the
logged error-log snapshots of successive generation calls extend one
another, and the final error log extends them all), and a generation
call carries `previous_attempt` plus `feedback` equal to the most
recently appended error-log entry exactly when its attempt index
within its own `_run_code_generation` invocation exceeds 1 and the
error log is non-empty; in particular the first attempt of a
re-invocation after a syntax or reference failure carries neither. -/
theorem c8_amended_feedback_contract (o : Oracle) (er : Bool) (id req : String) :
    GenLogInv (generateCode o er id req).2.2.genLog
      (generateCode o er id req).2.1.error_messages := by
  simp only [generateCode]
  set r1 := runCodeGeneration o (initState id req) {} with hr1
  set r2 := runSyntaxValidation o r1.2.1 r1.2.2 with hr2
  set r3 := runHallucinationDetection o r2.2.1 r2.2.2 with hr3
  have hInv1 : GenLogInv r1.2.2.genLog r1.2.1.error_messages := by
    rw [hr1]
    exact runCodeGeneration_inv o _ _ genLogInv_nil
  have hInv2 : GenLogInv r2.2.2.genLog r2.2.1.error_messages := by
    rw [hr2]
    exact synAttempts_inv o _ _ _ hInv1
  have hInv3 : GenLogInv r3.2.2.genLog r3.2.1.error_messages := by
    rw [hr3]
    exact halAttempts_inv o _ _ _ hInv2
  by_cases hb1 : r1.1 = true
  · rw [if_pos hb1]
    by_cases hb2 : r2.1 = true
    · rw [if_pos hb2]
      by_cases hb3 : r3.1 = true
      · rw [if_pos hb3]
        cases er with
        | true =>
          show GenLogInv r3.2.2.genLog (runCodeReview o r3.2.1).error_messages
          rw [runCodeReview_messages]
          exact hInv3
        | false => exact hInv3
      · rw [if_neg hb3]
        exact hInv3
    · rw [if_neg hb2]
      exact hInv2
  · rw [if_neg hb1]
    exact hInv1

theorem c2_amended_success_guarantees_witness :
    1 ≤ (generateCode oRevFault true "req-2w" "demo").2.1.attempts_generation ∧
    (generateCode oRevFault true "req-2w" "demo").2.2.halLog.getLast?
      = some ((generateCode oRevFault true "req-2w" "demo").2.1.generated_code,
          HalResult.verified) ∧
    (∃ c, (generateCode oRevFault true "req-2w" "demo").2.2.synLog.getLast?
      = some (c, SynResult.valid)) :=
  c2_amended_success_guarantees oRevFault true "req-2w" "demo" (by decide)

theorem c3_amended_failed_stage_witness :
    ((generateCode oC3run true "req-3w" "demo").1.status = "failed" ↔
      ¬ ((stage1 oC3run "req-3w" "demo").1 = true ∧
         (stage2 oC3run "req-3w" "demo").1 = true ∧
         (stage3 oC3run "req-3w" "demo").1 = true)) ∧
    ((generateCode oC3run true "req-3w" "demo").1.status = "failed" →
      (generateCode oC3run true "req-3w" "demo").1.failure_metadata.map
        FailureMeta.failed_at_stage
        = some (generateCode oC3run true "req-3w" "demo").2.1.current_stage.value ∧
      ((generateCode oC3run true "req-3w" "demo").2.1.current_stage
          = Stage.code_generation ∨
       (generateCode oC3run true "req-3w" "demo").2.1.current_stage
          = Stage.syntax_check ∨
       (generateCode oC3run true "req-3w" "demo").2.1.current_stage
          = Stage.hallucination_check)) :=
  c3_amended_failed_stage oC3run true "req-3w" "demo"

/-- Collaborator behaviour whose syntax validator always supplies an
auto-corrected variant. -/
def oC7w : Oracle := {
  gen := fun _ => .failure none
  syn := fun _ _ => .invalid [] (some "fixed")
  hal := fun _ _ => .verified
  rev := fun _ => .ok {} }

theorem c7_autocorrect_frame_witness :
    synAttempts oC7w [1, 2, 3] (initState "req-7" "demo") {} =
      synAttempts oC7w [2, 3]
        { (initState "req-7" "demo") with
          attempts_syntax_fix := 1,
          syntax_result := some (.invalid [] (some "fixed")),
          generated_code := some "fixed" }
        { ({} : World) with
          synCalls := ({} : World).synCalls + 1,
          synLog := ({} : World).synLog
            ++ [((initState "req-7" "demo").generated_code, .invalid [] (some "fixed"))] } ∧
    ({ (initState "req-7" "demo") with
       attempts_syntax_fix := 1,
       syntax_result := some (.invalid [] (some "fixed")),
       generated_code := some "fixed" } : RequestState).attempts_generation
      = (initState "req-7" "demo").attempts_generation ∧
    ({ ({} : World) with
       synCalls := ({} : World).synCalls + 1,
       synLog := ({} : World).synLog
         ++ [((initState "req-7" "demo").generated_code, .invalid [] (some "fixed"))] }
        : World).genCalls = ({} : World).genCalls ∧
    ({ ({} : World) with
       synCalls := ({} : World).synCalls + 1,
       synLog := ({} : World).synLog
         ++ [((initState "req-7" "demo").generated_code, .invalid [] (some "fixed"))] }
        : World).genLog = ({} : World).genLog :=
  c7_autocorrect_frame oC7w (initState "req-7" "demo") {} 1 [2, 3] [] (some "fixed")
    "fixed" (by decide) (by decide)

theorem c10_review_entry_witness :
    (compileSuccessResponse
        { request_id := "req-10", user_request := "demo",
          review_result := some (.errorRecord "review failed") }).validation.map
        Validation.review
      = some (some (reviewEntryOf (.errorRecord "review failed"))) ∧
    (reviewEntryOf (.errorRecord "review failed")).status = "✅ Completed" ∧
    (∀ msg, (ReviewStored.errorRecord "review failed") = .errorRecord msg →
      (reviewEntryOf (.errorRecord "review failed")).score = .na ∧
      (reviewEntryOf (.errorRecord "review failed")).summary = "") :=
  c10_review_entry
    { request_id := "req-10", user_request := "demo",
      review_result := some (.errorRecord "review failed") }
    (.errorRecord "review failed") rfl rfl
